import Mathlib

/-!
# Verification of the CAPTCHA-solver microservice (captcha_solver.py)

Shallow embedding of the single-file Flask service `captcha_solver.py`.
The service exposes three functional endpoints (`/solve-captcha`,
`/analyze-state`, `/analyze-strategy`).  Each endpoint decodes a JSON body,
optionally calls an external vision model, converts the model's structured
function calls into an action list (denormalizing 0-999 coordinates to
pixels), and returns a JSON response.

Modelling choices, each justified against the source:

* `denormalize_x` / `denormalize_y` (source lines 32-38) compute
  `int((v / 1000) * dim)` in Python, i.e. IEEE-754 binary64 arithmetic:
  one correctly-rounded division by 1000, one correctly-rounded
  multiplication, then truncation toward zero.  We embed binary64
  round-to-nearest-ties-to-even exactly, over integers: a positive double
  is a pair `(m, e)` with value `m * 2^e`, `m` the 53-bit significand
  obtained by rounding the exact rational half-to-even.  Overflow and
  subnormals are not modelled; the model is exact for all values whose
  magnitude lies in the normal binary64 range, which covers every input
  considered in the theorems below (dimensions are bounded by `2^53`
  where a theorem quantifies over them, keeping the int-to-double
  conversion of the dimension exact as well).
* The model's function-call arguments (a protobuf map) are embedded as an
  association list `List (String × Val)` with Python-dict update
  semantics: updating an existing key replaces it in place, a new key is
  appended (insertion order).  `{'type': name, **args}` is embedded as
  folding the argument pairs over the one-entry dict `[("type", name)]`,
  which reproduces the fact that an args key literally named `"type"`
  overwrites the `type` field.
* Exceptions are embedded with `Except String`: the body of every endpoint
  runs inside one catch-all `try/except` returning a 500 response, so the
  endpoint functions are total and map any raised error to a
  `serverError` value.  Flask's `request.json` raises on an unparseable
  body, *inside* the try-block, so the parsed body is passed to the
  handlers as `Except String (Option Data)`: `.error` is a parse
  exception, `.ok none` is a body that parsed to a falsy value
  (`null` / empty object), `.ok (some d)` is a parsed object.
* The external model call is a parameter of the handler (`Env`), taking
  the prompt text actually sent and returning either the parts of the
  first candidate or a raised error.  Handlers additionally report
  whether the model call was reached (`model_called`) and the prompt text
  passed to it (`model_task`), which are directly readable off the
  source's control flow.
-/

namespace CaptchaSolver

/-! ## Exact binary64 rounding, over integers -/

/-- Number of binary digits of `n` (`0` for `0`), via explicit fuel so that
the kernel can evaluate it. -/
def bitlenAux : Nat → Nat → Nat
  | 0, _ => 0
  | fuel + 1, n => if n = 0 then 0 else bitlenAux fuel (n / 2) + 1

/-- Binary length of a natural number: `bitlen n = ⌊log2 n⌋ + 1` for `n ≥ 1`. -/
def bitlen (n : Nat) : Nat := bitlenAux (n + 1) n

/-- `⌊log2 (a / b)⌋` for `a, b ≥ 1`: the unique `e` with `2^e ≤ a/b < 2^(e+1)`. -/
def ilogq (a b : Nat) : Int :=
  let e0 : Int := (bitlen a : Int) - (bitlen b : Int)
  if 0 ≤ e0 then (if 2 ^ e0.toNat * b ≤ a then e0 else e0 - 1)
  else (if b ≤ a * 2 ^ (-e0).toNat then e0 else e0 - 1)

/-- Round `a / b` (with `b ≥ 1`) to the nearest integer, ties to even. -/
def rdivNE (a b : Nat) : Nat :=
  let q := a / b
  let r := a % b
  if 2 * r < b then q
  else if b < 2 * r then q + 1
  else if q % 2 = 0 then q else q + 1

/-- The binary64 double nearest to the positive rational `a / b`
(round-to-nearest, ties-to-even), returned as `(m, e)` with value
`m * 2^e` and `m ∈ [2^52, 2^53]`.  Assumes normal range. -/
def roundFloatPos (a b : Nat) : Nat × Int :=
  let e := ilogq a b
  let shift := 52 - e
  let m := if 0 ≤ shift then rdivNE (a * 2 ^ shift.toNat) b
           else rdivNE a (b * 2 ^ (-shift).toNat)
  (m, e - 52)

/-- Truncation toward zero of the nonnegative double `(m, e)`. -/
def floatTruncMag : Nat × Int → Nat
  | (m, e) => if 0 ≤ e then m * 2 ^ e.toNat else m / 2 ^ (-e).toNat

/-- Magnitude of `int((xa / 1000) * wa)` under Python / binary64 semantics,
for nonnegative `xa`, `wa`: round `xa/1000` to a double, multiply exactly
by `wa` and round again, truncate toward zero. -/
def denormMag (xa wa : Nat) : Nat :=
  if xa = 0 ∨ wa = 0 then 0
  else
    let f1 := roundFloatPos xa 1000
    let a := f1.1 * wa
    let f2 := if 0 ≤ f1.2 then roundFloatPos (a * 2 ^ f1.2.toNat) 1
              else roundFloatPos a (2 ^ (-f1.2).toNat)
    floatTruncMag f2

/-- Source lines 32-34: `int((x / 1000) * screen_width)`.
Convert normalized x coordinate (0-999) to actual pixel coordinate. -/
def denormalize_x (x screen_width : Int) : Int :=
  let mag : Int := denormMag x.natAbs screen_width.natAbs
  if (decide (x < 0) != decide (screen_width < 0)) then -mag else mag

/-- Source lines 36-38: `int((y / 1000) * screen_height)`.
Convert normalized y coordinate (0-999) to actual pixel coordinate. -/
def denormalize_y (y screen_height : Int) : Int :=
  let mag : Int := denormMag y.natAbs screen_height.natAbs
  if (decide (y < 0) != decide (screen_height < 0)) then -mag else mag

/-- Source line 28. -/
def SCREEN_WIDTH : Int := 1440
/-- Source line 29. -/
def SCREEN_HEIGHT : Int := 900

/-! ## Function-call arguments: Python dicts as association lists -/

/-- A JSON-ish argument value: integer coordinates, strings (`text`,
`direction`), booleans (`press_enter`). -/
inductive Val where
  | int (n : Int)
  | str (s : String)
  | bool (b : Bool)
deriving DecidableEq, Repr

/-- An argument dict in insertion order (Python dicts preserve it). -/
abbrev ArgList := List (String × Val)

/-- `args[k]` lookup (first — in a real dict, only — binding of `k`). -/
def getArg : ArgList → String → Option Val
  | [], _ => none
  | kv :: rest, k => if kv.1 == k then some kv.2 else getArg rest k

/-- `k in args`. -/
def hasArg (args : ArgList) (k : String) : Bool :=
  (getArg args k).isSome

/-- `args[k] = v`: replace the binding in place if the key exists,
append it otherwise — Python dict assignment semantics. -/
def setArg : ArgList → String → Val → ArgList
  | [], k, v => [(k, v)]
  | kv :: rest, k, v =>
    if kv.1 == k then (k, v) :: rest else kv :: setArg rest k v

/-- One structured function invocation emitted by the model. -/
structure FunctionCall where
  name : String
  args : ArgList
deriving DecidableEq, Repr

/-- One part of the model's first candidate: the source tests
`part.function_call` and `part.text` independently, so both are options. -/
structure Part where
  function_call : Option FunctionCall
  text : Option String
deriving DecidableEq, Repr

/-! ## The action-extraction pipeline (source lines 264-298 / 473-500,
duplicated verbatim across `/solve-captcha` and `/analyze-state`) -/

/-- Source lines 273-278 / 482-485: for a `drag_and_drop` call that has
`destination_x` but no `destination_y`, copy the (still normalized)
source `y` into `destination_y` before any denormalization. -/
def applyDragDefault (name : String) (args : ArgList) : ArgList :=
  if name == "drag_and_drop" && hasArg args "destination_x" &&
      !hasArg args "destination_y" then
    match getArg args "y" with
    | some v => setArg args "destination_y" v
    | none => args
  else args

/-- `args[k] = f(args[k])`: Python raises (TypeError) when the stored
value is not a number, and the endpoint's catch-all turns any raised
error into a 500 response, hence the `Except`. -/
def denormKey (args : ArgList) (k : String) (f : Int → Int) :
    Except String ArgList :=
  match getArg args k with
  | some (Val.int n) => .ok (setArg args k (Val.int (f n)))
  | some _ => .error "TypeError: unsupported operand type"
  | none => .error ("KeyError: " ++ k)

/-- Source lines 273-293 / 482-495: the per-call argument transform.
After the drag default, coordinates are denormalized only when *both*
`x` and `y` are present; destination coordinates additionally require
both `destination_x` and `destination_y`. -/
def processArgs (sw sh : Int) (name : String) (args0 : ArgList) :
    Except String ArgList :=
  let args := applyDragDefault name args0
  if hasArg args "x" && hasArg args "y" then
    match denormKey args "x" (fun n => denormalize_x n sw) with
    | .error e => .error e
    | .ok a1 =>
      match denormKey a1 "y" (fun n => denormalize_y n sh) with
      | .error e => .error e
      | .ok a2 =>
        if hasArg a2 "destination_x" && hasArg a2 "destination_y" then
          match denormKey a2 "destination_x" (fun n => denormalize_x n sw) with
          | .error e => .error e
          | .ok a3 =>
            match denormKey a3 "destination_y" (fun n => denormalize_y n sh) with
            | .error e => .error e
            | .ok a4 => .ok a4
        else .ok a2
  else .ok args

/-- An assembled action is itself a dict. -/
abbrev Action := ArgList

/-- Source line 295-298 / 497-500: `{'type': action_name, **args}` —
start from the one-entry dict and apply each argument binding with dict
update semantics (so an argument key `"type"` overwrites the field). -/
def mkAction (name : String) (args : ArgList) : Action :=
  args.foldl (fun d kv => setArg d kv.1 kv.2) [("type", Val.str name)]

/-- The extraction loop over the candidate's parts: parts without a
function call are skipped; each function call becomes one action, in
emission order. -/
def extractActions (sw sh : Int) : List Part → Except String (List Action)
  | [] => .ok []
  | p :: ps =>
    match p.function_call with
    | some fc =>
      match processArgs sw sh fc.name fc.args with
      | .error e => .error e
      | .ok argsP =>
        match extractActions sw sh ps with
        | .error e => .error e
        | .ok rest => .ok (mkAction fc.name argsP :: rest)
    | none => extractActions sw sh ps

/-- Source lines 301-306 / 502-507: the first part whose `text` is truthy
(non-`None`, non-empty) supplies the response message. -/
def firstText : List Part → Option String
  | [] => none
  | p :: ps =>
    match p.text with
    | some s => if s = "" then firstText ps else some s
    | none => firstText ps

/-! ## Endpoint embeddings -/

/-- Parsed body of `/solve-captcha` (source lines 152-156). `none` fields
are absent keys, for which `data.get(key, default)` substitutes the
default. -/
structure SolveData where
  screenshot : Option String
  task : Option String
  screen_width : Option Int
  screen_height : Option Int
  current_url : Option String
deriving DecidableEq, Repr

/-- Parsed body of `/analyze-state` (source lines 353-355).  The handler
reads only `screenshot`, `previous_action` and `current_url`; any
viewport dimensions the caller supplies are carried here to make their
being ignored a provable statement. -/
structure StateData where
  screenshot : Option String
  previous_action : Option String
  current_url : Option String
  screen_width : Option Int
  screen_height : Option Int
deriving DecidableEq, Repr

/-- Parsed body of `/analyze-strategy` (source lines 58-59). -/
structure StrategyData where
  screenshot : Option String
  current_url : Option String
deriving DecidableEq, Repr

/-- HTTP response of `/solve-captcha`: a 400 `{'error': msg}`, the
catch-all 500 `{'success': False, 'error': msg}`, or a 200
`{'success', 'actions', 'message', 'complete'}`. -/
inductive SolveResp where
  | badRequest (msg : String)
  | serverError (msg : String)
  | okResp (success : Bool) (actions : List Action) (message : String)
      (complete : Bool)
deriving DecidableEq, Repr

/-- HTTP status code attached to each `SolveResp` alternative. -/
def SolveResp.status : SolveResp → Nat
  | .badRequest _ => 400
  | .serverError _ => 500
  | .okResp _ _ _ _ => 200

/-- HTTP response of `/analyze-state`: 400 `{'error': msg}`, 500
`{'success': False, 'error': msg}`, or 200
`{'complete', 'next_actions', 'message'}`. -/
inductive StateResp where
  | badRequest (msg : String)
  | serverError (msg : String)
  | okResp (complete : Bool) (next_actions : List Action) (message : String)
deriving DecidableEq, Repr

/-- HTTP status code attached to each `StateResp` alternative. -/
def StateResp.status : StateResp → Nat
  | .badRequest _ => 400
  | .serverError _ => 500
  | .okResp _ _ _ => 200

/-- HTTP response of `/analyze-strategy`: 400
`{'success': False, 'message': 'No screenshot provided'}`, 500
`{'success': False, 'message': msg}`, or 200
`{'success', 'strategy', 'message'}`. -/
inductive StrategyResp where
  | badRequest (msg : String)
  | serverError (msg : String)
  | okResp (strategy : String) (message : String)
deriving DecidableEq, Repr

/-- HTTP status code attached to each `StrategyResp` alternative. -/
def StrategyResp.status : StrategyResp → Nat
  | .badRequest _ => 400
  | .serverError _ => 500
  | .okResp _ _ => 200

/-- External effects of an endpoint whose model call carries a tool
schema: `decode` is `base64.b64decode` (its raised errors reach the
catch-all), `model` maps the prompt text that is sent to either the
parts of the first response candidate or a raised error (network, quota,
malformed response, missing candidate). -/
structure Env where
  decode : String → Except String Unit
  model : String → Except String (List Part)

/-- External effects of `/analyze-strategy`, whose model call returns
plain text (`response.text`). -/
structure StrategyEnv where
  decode : String → Except String Unit
  model : Except String String

/-- Result of running one request: the HTTP response, whether control
reached the external model call, and the prompt text passed to it. -/
structure SolveResult where
  resp : SolveResp
  model_called : Bool
  model_task : Option String
deriving DecidableEq, Repr

/-- Result of one `/analyze-state` request. -/
structure StateResult where
  resp : StateResp
  model_called : Bool
deriving DecidableEq, Repr

/-- Result of one `/analyze-strategy` request. -/
structure StrategyResult where
  resp : StrategyResp
  model_called : Bool
deriving DecidableEq, Repr

/-- Source line 153: the default task string. -/
def defaultTask : String :=
  "Solve the CAPTCHA challenge to proceed to the next page."

/-- Python truthiness of an optional string: `None` and `''` are falsy. -/
def strFalsy : Option String → Bool
  | none => true
  | some s => s == ""

/-- Source lines 119-329, `/solve-captcha`.  The body argument models
Flask's `request.json` evaluated inside the try-block: `.error` is a
raised parse exception (unparseable body), `.ok none` a body whose
parsed value is falsy (`null`, empty object), `.ok (some d)` a parsed
object. -/
def solve_captcha (body : Except String (Option SolveData)) (env : Env) :
    SolveResult :=
  match body with
  | .error e => ⟨.serverError e, false, none⟩
  | .ok none => ⟨.badRequest "No JSON data provided", false, none⟩
  | .ok (some data) =>
    let task := data.task.getD defaultTask
    let screen_width := data.screen_width.getD SCREEN_WIDTH
    let screen_height := data.screen_height.getD SCREEN_HEIGHT
    match data.screenshot with
    | none => ⟨.badRequest "screenshot is required", false, none⟩
    | some s =>
      if s = "" then ⟨.badRequest "screenshot is required", false, none⟩
      else
        match env.decode s with
        | .error e => ⟨.serverError e, false, none⟩
        | .ok _ =>
          match env.model task with
          | .error e => ⟨.serverError e, true, some task⟩
          | .ok parts =>
            match extractActions screen_width screen_height parts with
            | .error e => ⟨.serverError e, true, some task⟩
            | .ok actions =>
              let text_response := firstText parts
              if actions.isEmpty then
                ⟨.okResp true [] (text_response.getD "No actions needed") true,
                  true, some task⟩
              else
                ⟨.okResp true actions
                  (text_response.getD
                    (toString actions.length ++ " actions to execute")) false,
                  true, some task⟩

/-- Source lines 424-451: the reassessment prompt, synthesized from a
template embedding the previously executed action.  The behavioral-policy
text (assessment questions, anti-detection instructions), which no claim
examines, is abbreviated to the template's opening sentence; its
dependence on `previous_action` is kept exact. -/
def stateTask (previous_action : String) : String :=
  "After executing " ++ previous_action ++
    ", observe and assess the current screen."

/-- Source lines 331-523, `/analyze-state`.  Note: this handler has no
`if not data` guard; a falsy parsed body makes `data.get` raise an
`AttributeError`, which the catch-all converts to a 500. -/
def analyze_state (body : Except String (Option StateData)) (env : Env) :
    StateResult :=
  match body with
  | .error e => ⟨.serverError e, false⟩
  | .ok none =>
    ⟨.serverError "AttributeError: NoneType object has no get", false⟩
  | .ok (some data) =>
    let previous_action := data.previous_action.getD "unknown"
    match data.screenshot with
    | none => ⟨.badRequest "screenshot is required", false⟩
    | some s =>
      if s = "" then ⟨.badRequest "screenshot is required", false⟩
      else
        match env.decode s with
        | .error e => ⟨.serverError e, false⟩
        | .ok _ =>
          match env.model (stateTask previous_action) with
          | .error e => ⟨.serverError e, true⟩
          | .ok parts =>
            match extractActions SCREEN_WIDTH SCREEN_HEIGHT parts with
            | .error e => ⟨.serverError e, true⟩
            | .ok actions =>
              let text_response := firstText parts
              let complete := actions.isEmpty
              ⟨.okResp complete actions
                (text_response.getD
                  (if complete then "Complete"
                   else toString actions.length ++ " more actions needed")),
                true⟩

/-- Source lines 50-116, `/analyze-strategy`.  Like `/analyze-state` it
has no `if not data` guard. -/
def analyze_strategy (body : Except String (Option StrategyData))
    (env : StrategyEnv) : StrategyResult :=
  match body with
  | .error e => ⟨.serverError e, false⟩
  | .ok none =>
    ⟨.serverError "AttributeError: NoneType object has no get", false⟩
  | .ok (some data) =>
    match data.screenshot with
    | none => ⟨.badRequest "No screenshot provided", false⟩
    | some s =>
      if s = "" then ⟨.badRequest "No screenshot provided", false⟩
      else
        match env.decode s with
        | .error e => ⟨.serverError e, false⟩
        | .ok _ =>
          match env.model with
          | .error e => ⟨.serverError e, true⟩
          | .ok strategy => ⟨.okResp strategy "Strategy created", true⟩

/-! ## Association-list lemmas -/

theorem getArg_cons (kv : String × Val) (args : ArgList) (k : String) :
    getArg (kv :: args) k =
      if kv.1 == k then some kv.2 else getArg args k := rfl

theorem hasArg_false_iff {args : ArgList} {k : String} :
    hasArg args k = false ↔ getArg args k = none := by
  unfold hasArg
  cases getArg args k <;> simp

theorem hasArg_true_iff {args : ArgList} {k : String} :
    hasArg args k = true ↔ ∃ v, getArg args k = some v := by
  unfold hasArg
  cases getArg args k <;> simp

theorem hasArg_iff_mem {args : ArgList} {k : String} :
    hasArg args k = true ↔ k ∈ args.map Prod.fst := by
  induction args with
  | nil => simp [hasArg, getArg]
  | cons hd tl ih =>
    by_cases h : hd.1 = k
    · simp [hasArg, getArg, h]
    · have hb : (hd.1 == k) = false := by simp [h]
      have hstep : hasArg (hd :: tl) k = hasArg tl k := by
        simp [hasArg, getArg, hb]
      rw [hstep, List.map_cons, List.mem_cons, ih]
      simp [Ne.symm h]

theorem getArg_setArg_self (args : ArgList) (k : String) (v : Val) :
    getArg (setArg args k v) k = some v := by
  induction args with
  | nil => simp [setArg, getArg]
  | cons hd tl ih =>
    by_cases h : hd.1 = k
    · simp [setArg, getArg, h]
    · have hb : (hd.1 == k) = false := by simp [h]
      simp [setArg, getArg, hb, ih]

theorem getArg_setArg_ne (args : ArgList) {k k' : String} (v : Val)
    (h : k' ≠ k) : getArg (setArg args k v) k' = getArg args k' := by
  induction args with
  | nil =>
    have hkk : (k == k') = false := by simp [Ne.symm h]
    simp [setArg, getArg, hkk]
  | cons hd tl ih =>
    by_cases hk : hd.1 = k
    · have hkk : (k == k') = false := by simp [Ne.symm h]
      have hne : (hd.1 == k') = false := by
        rw [hk]; simp [Ne.symm h]
      simp [setArg, getArg, hk, hkk, hne]
    · have hb : (hd.1 == k) = false := by simp [hk]
      simp [setArg, getArg, hb, ih]

theorem keys_setArg_of_hasArg {args : ArgList} {k : String} (v : Val)
    (h : hasArg args k = true) :
    (setArg args k v).map Prod.fst = args.map Prod.fst := by
  induction args with
  | nil => simp [hasArg, getArg] at h
  | cons hd tl ih =>
    by_cases hk : hd.1 = k
    · simp [setArg, hk]
    · have hb : (hd.1 == k) = false := by simp [hk]
      have h' : hasArg tl k = true := by
        simpa [hasArg, getArg, hb] using h
      simp [setArg, hb, ih h']

theorem keys_setArg_of_not_hasArg {args : ArgList} {k : String} (v : Val)
    (h : hasArg args k = false) :
    (setArg args k v).map Prod.fst = args.map Prod.fst ++ [k] := by
  induction args with
  | nil => simp [setArg]
  | cons hd tl ih =>
    have hb : (hd.1 == k) = false := by
      by_contra hc
      have hbt : (hd.1 == k) = true := by
        revert hc; cases hd.1 == k <;> simp
      rw [hasArg_false_iff] at h
      rw [getArg_cons, hbt] at h
      simp at h
    have h' : hasArg tl k = false := by
      rw [hasArg_false_iff] at h ⊢
      rw [getArg_cons, hb] at h
      simpa using h
    simp [setArg, hb, ih h']

theorem hasArg_congr_keys {args args' : ArgList}
    (h : args'.map Prod.fst = args.map Prod.fst) (k : String) :
    hasArg args' k = hasArg args k := by
  cases hh : hasArg args k with
  | true =>
    have hm : k ∈ args.map Prod.fst := hasArg_iff_mem.mp hh
    have hm' : k ∈ args'.map Prod.fst := by rw [h]; exact hm
    exact hasArg_iff_mem.mpr hm'
  | false =>
    cases hc : hasArg args' k with
    | false => rfl
    | true =>
      have hm : k ∈ args'.map Prod.fst := hasArg_iff_mem.mp hc
      rw [h] at hm
      rw [hasArg_iff_mem.mpr hm] at hh
      exact absurd hh (by simp)

theorem hasArg_setArg_self (args : ArgList) (k : String) (v : Val) :
    hasArg (setArg args k v) k = true :=
  hasArg_true_iff.mpr ⟨v, getArg_setArg_self args k v⟩

theorem hasArg_setArg_ne (args : ArgList) {k k' : String} (v : Val)
    (h : k' ≠ k) : hasArg (setArg args k v) k' = hasArg args k' := by
  unfold hasArg
  rw [getArg_setArg_ne args v h]

theorem nodup_keys_setArg {args : ArgList} {k : String} (v : Val)
    (h : (args.map Prod.fst).Nodup) :
    ((setArg args k v).map Prod.fst).Nodup := by
  cases hh : hasArg args k with
  | true => rw [keys_setArg_of_hasArg v hh]; exact h
  | false =>
    rw [keys_setArg_of_not_hasArg v hh, ← List.concat_eq_append]
    exact List.Nodup.concat (fun hm => by
      simp [hasArg_iff_mem.mpr hm] at hh) h

/-! ## Dict-merge (`mkAction`) lemmas -/

theorem getArg_foldl_of_forall_ne {l : ArgList} {k : String}
    (h : ∀ kv ∈ l, kv.1 ≠ k) (init : ArgList) :
    getArg (l.foldl (fun d kv => setArg d kv.1 kv.2) init) k =
      getArg init k := by
  induction l generalizing init with
  | nil => rfl
  | cons hd tl ih =>
    rw [List.foldl_cons,
      ih (fun kv hm => h kv (List.mem_cons_of_mem hd hm)),
      getArg_setArg_ne init hd.2 (Ne.symm (h hd (List.mem_cons_self hd tl)))]

theorem getArg_foldl_of_nodup {l : ArgList} {k : String} {v : Val}
    (hnd : (l.map Prod.fst).Nodup) (hv : getArg l k = some v)
    (init : ArgList) :
    getArg (l.foldl (fun d kv => setArg d kv.1 kv.2) init) k = some v := by
  induction l generalizing init with
  | nil => simp [getArg] at hv
  | cons hd tl ih =>
    rw [List.map_cons, List.nodup_cons] at hnd
    by_cases hk : hd.1 = k
    · have hb : (hd.1 == k) = true := by simp [hk]
      rw [getArg_cons, hb, if_pos rfl] at hv
      have hne : ∀ kv ∈ tl, kv.1 ≠ k := by
        intro kv hm he
        exact hnd.1 (by rw [hk, ← he]; exact List.mem_map_of_mem Prod.fst hm)
      rw [List.foldl_cons, getArg_foldl_of_forall_ne hne, hk,
        getArg_setArg_self]
      exact hv
    · have hb : (hd.1 == k) = false := by simp [hk]
      rw [getArg_cons, hb, if_neg (by simp)] at hv
      rw [List.foldl_cons]
      exact ih hnd.2 hv _

theorem hasArg_foldl_mono {l : ArgList} {k : String} (init : ArgList)
    (h : hasArg init k = true) :
    hasArg (l.foldl (fun d kv => setArg d kv.1 kv.2) init) k = true := by
  induction l generalizing init with
  | nil => exact h
  | cons hd tl ih =>
    rw [List.foldl_cons]
    refine ih _ ?_
    by_cases hk : k = hd.1
    · rw [hk]; exact hasArg_setArg_self init hd.1 hd.2
    · rw [hasArg_setArg_ne init hd.2 hk]; exact h

theorem hasArg_foldl_of_mem {l : ArgList} {k : String}
    (h : k ∈ l.map Prod.fst) (init : ArgList) :
    hasArg (l.foldl (fun d kv => setArg d kv.1 kv.2) init) k = true := by
  induction l generalizing init with
  | nil => simp at h
  | cons hd tl ih =>
    rw [List.foldl_cons]
    rw [List.map_cons, List.mem_cons] at h
    rcases h with h | h
    · exact hasArg_foldl_mono _ (h ▸ hasArg_setArg_self init hd.1 hd.2)
    · exact ih h _

theorem getArg_mkAction_type {name : String} {args : ArgList}
    (h : hasArg args "type" = false) :
    getArg (mkAction name args) "type" = some (Val.str name) := by
  unfold mkAction
  rw [getArg_foldl_of_forall_ne (fun kv hm he => by
    simp [hasArg_iff_mem.mpr (he ▸ List.mem_map_of_mem Prod.fst hm)] at h)]
  rfl

theorem hasArg_mkAction_of_hasArg {name : String} {args : ArgList}
    {k : String} (h : hasArg args k = true) :
    hasArg (mkAction name args) k = true :=
  hasArg_foldl_of_mem (hasArg_iff_mem.mp h) _

theorem getArg_mkAction_of_nodup {name : String} {args : ArgList}
    {k : String} {v : Val} (hnd : (args.map Prod.fst).Nodup)
    (h : getArg args k = some v) :
    getArg (mkAction name args) k = some v :=
  getArg_foldl_of_nodup hnd h _

/-! ## `denormKey` lemmas -/

theorem denormKey_ok_of_int {args : ArgList} {k : String} {n : Int}
    (f : Int → Int) (h : getArg args k = some (Val.int n)) :
    denormKey args k f = .ok (setArg args k (Val.int (f n))) := by
  unfold denormKey
  rw [h]

theorem denormKey_keys {args args' : ArgList} {k : String}
    {f : Int → Int} (h : denormKey args k f = .ok args') :
    args'.map Prod.fst = args.map Prod.fst := by
  unfold denormKey at h
  cases hg : getArg args k with
  | none => rw [hg] at h; exact absurd h (by simp)
  | some v =>
    cases v with
    | int n =>
      rw [hg] at h
      have : args' = setArg args k (Val.int (f n)) := by
        injection h with h'; exact h'.symm
      rw [this]
      exact keys_setArg_of_hasArg _ (hasArg_true_iff.mpr ⟨_, hg⟩)
    | str s => rw [hg] at h; exact absurd h (by simp)
    | bool b => rw [hg] at h; exact absurd h (by simp)

theorem getArg_denormKey_ne {args args' : ArgList} {k k' : String}
    {f : Int → Int} (h : denormKey args k f = .ok args') (hne : k' ≠ k) :
    getArg args' k' = getArg args k' := by
  unfold denormKey at h
  cases hg : getArg args k with
  | none => rw [hg] at h; exact absurd h (by simp)
  | some v =>
    cases v with
    | int n =>
      rw [hg] at h
      have : args' = setArg args k (Val.int (f n)) := by
        injection h with h'; exact h'.symm
      rw [this, getArg_setArg_ne args _ hne]
    | str s => rw [hg] at h; exact absurd h (by simp)
    | bool b => rw [hg] at h; exact absurd h (by simp)

/-! ## `applyDragDefault` lemmas -/

theorem getArg_applyDragDefault_ne {name : String} {args : ArgList}
    {k : String} (h : k ≠ "destination_y") :
    getArg (applyDragDefault name args) k = getArg args k := by
  unfold applyDragDefault
  split
  · split
    · exact getArg_setArg_ne args _ h
    · rfl
  · rfl

theorem hasArg_applyDragDefault_ne {name : String} {args : ArgList}
    {k : String} (h : k ≠ "destination_y") :
    hasArg (applyDragDefault name args) k = hasArg args k := by
  unfold hasArg
  rw [getArg_applyDragDefault_ne h]

theorem hasArg_applyDragDefault_of_hasArg {name : String} {args : ArgList}
    {k : String} (h : hasArg args k = true) :
    hasArg (applyDragDefault name args) k = true := by
  unfold applyDragDefault
  split
  · split
    · by_cases hk : k = "destination_y"
      · rw [hk]; exact hasArg_setArg_self args _ _
      · rw [hasArg_setArg_ne args _ hk]; exact h
    · exact h
  · exact h

theorem hasArg_applyDragDefault_rev {name : String} {args : ArgList}
    {k : String} (h : hasArg (applyDragDefault name args) k = true) :
    hasArg args k = true ∨ k = "destination_y" := by
  by_cases hk : k = "destination_y"
  · exact Or.inr hk
  · rw [hasArg_applyDragDefault_ne hk] at h
    exact Or.inl h

theorem nodup_keys_applyDragDefault {name : String} {args : ArgList}
    (h : (args.map Prod.fst).Nodup) :
    ((applyDragDefault name args).map Prod.fst).Nodup := by
  unfold applyDragDefault
  split
  · split
    · exact nodup_keys_setArg _ h
    · exact h
  · exact h

/-! ## `processArgs` lemmas -/

theorem processArgs_keys {sw sh : Int} {name : String}
    {args args' : ArgList}
    (h : processArgs sw sh name args = .ok args') :
    args'.map Prod.fst = (applyDragDefault name args).map Prod.fst := by
  simp only [processArgs] at h
  split at h
  · cases h1 : denormKey (applyDragDefault name args) "x"
        (fun n => denormalize_x n sw) with
    | error e => simp [h1] at h
    | ok a1 =>
      simp only [h1] at h
      cases h2 : denormKey a1 "y" (fun n => denormalize_y n sh) with
      | error e => simp [h2] at h
      | ok a2 =>
        simp only [h2] at h
        split at h
        · cases h3 : denormKey a2 "destination_x"
              (fun n => denormalize_x n sw) with
          | error e => simp [h3] at h
          | ok a3 =>
            simp only [h3] at h
            cases h4 : denormKey a3 "destination_y"
                (fun n => denormalize_y n sh) with
            | error e => simp [h4] at h
            | ok a4 =>
              simp only [h4, Except.ok.injEq] at h
              rw [← h, denormKey_keys h4, denormKey_keys h3,
                denormKey_keys h2, denormKey_keys h1]
        · simp only [Except.ok.injEq] at h
          rw [← h, denormKey_keys h2, denormKey_keys h1]
  · simp only [Except.ok.injEq] at h
    rw [← h]

theorem processArgs_hasArg {sw sh : Int} {name : String}
    {args args' : ArgList} {k : String}
    (h : processArgs sw sh name args = .ok args')
    (hk : hasArg args k = true) : hasArg args' k = true := by
  rw [hasArg_congr_keys (processArgs_keys h) k]
  exact hasArg_applyDragDefault_of_hasArg hk

theorem processArgs_not_type {sw sh : Int} {name : String}
    {args args' : ArgList}
    (h : processArgs sw sh name args = .ok args')
    (ht : hasArg args "type" = false) : hasArg args' "type" = false := by
  rw [hasArg_congr_keys (processArgs_keys h) "type",
    hasArg_applyDragDefault_ne (by decide)]
  exact ht

theorem processArgs_nodup {sw sh : Int} {name : String}
    {args args' : ArgList}
    (h : processArgs sw sh name args = .ok args')
    (hnd : (args.map Prod.fst).Nodup) : (args'.map Prod.fst).Nodup := by
  rw [processArgs_keys h]
  exact nodup_keys_applyDragDefault hnd

theorem processArgs_no_denorm {sw sh : Int} {name : String}
    {args : ArgList}
    (h : (hasArg args "x" && hasArg args "y") = false) :
    processArgs sw sh name args = .ok (applyDragDefault name args) := by
  have hx : hasArg (applyDragDefault name args) "x" = hasArg args "x" :=
    hasArg_applyDragDefault_ne (by decide)
  have hy : hasArg (applyDragDefault name args) "y" = hasArg args "y" :=
    hasArg_applyDragDefault_ne (by decide)
  simp only [processArgs, hx, hy, h]
  rw [if_neg (by simp)]

theorem applyDragDefault_fires {args : ArgList} {v : Val}
    (hdx : hasArg args "destination_x" = true)
    (hdy : hasArg args "destination_y" = false)
    (hy : getArg args "y" = some v) :
    applyDragDefault "drag_and_drop" args =
      setArg args "destination_y" v := by
  unfold applyDragDefault
  rw [hdx, hdy]
  simp [hy]

theorem processArgs_drag (sw sh : Int) {args : ArgList} {xv yv dxv : Int}
    (hx : getArg args "x" = some (Val.int xv))
    (hy : getArg args "y" = some (Val.int yv))
    (hdx : getArg args "destination_x" = some (Val.int dxv))
    (hdy : hasArg args "destination_y" = false) :
    processArgs sw sh "drag_and_drop" args =
      .ok (setArg (setArg (setArg (setArg
            (setArg args "destination_y" (Val.int yv))
            "x" (Val.int (denormalize_x xv sw)))
            "y" (Val.int (denormalize_y yv sh)))
            "destination_x" (Val.int (denormalize_x dxv sw)))
            "destination_y" (Val.int (denormalize_y yv sh))) := by
  have e0 : applyDragDefault "drag_and_drop" args =
      setArg args "destination_y" (Val.int yv) :=
    applyDragDefault_fires (hasArg_true_iff.mpr ⟨_, hdx⟩) hdy hy
  have g1x : getArg (setArg args "destination_y" (Val.int yv)) "x" =
      some (Val.int xv) := by
    rw [getArg_setArg_ne args _ (by decide)]; exact hx
  have g1y : getArg (setArg args "destination_y" (Val.int yv)) "y" =
      some (Val.int yv) := by
    rw [getArg_setArg_ne args _ (by decide)]; exact hy
  have hx1 : hasArg (setArg args "destination_y" (Val.int yv)) "x" = true :=
    hasArg_true_iff.mpr ⟨_, g1x⟩
  have hy1 : hasArg (setArg args "destination_y" (Val.int yv)) "y" = true :=
    hasArg_true_iff.mpr ⟨_, g1y⟩
  have d1 : denormKey (setArg args "destination_y" (Val.int yv)) "x"
      (fun n => denormalize_x n sw) =
      .ok (setArg (setArg args "destination_y" (Val.int yv)) "x"
        (Val.int (denormalize_x xv sw))) :=
    denormKey_ok_of_int _ g1x
  have g2y : getArg (setArg (setArg args "destination_y" (Val.int yv)) "x"
      (Val.int (denormalize_x xv sw))) "y" = some (Val.int yv) := by
    rw [getArg_setArg_ne _ _ (by decide)]; exact g1y
  have d2 : denormKey (setArg (setArg args "destination_y" (Val.int yv)) "x"
      (Val.int (denormalize_x xv sw))) "y" (fun n => denormalize_y n sh) =
      .ok (setArg (setArg (setArg args "destination_y" (Val.int yv)) "x"
        (Val.int (denormalize_x xv sw))) "y"
        (Val.int (denormalize_y yv sh))) :=
    denormKey_ok_of_int _ g2y
  have g3dx : getArg (setArg (setArg (setArg args "destination_y"
      (Val.int yv)) "x" (Val.int (denormalize_x xv sw))) "y"
      (Val.int (denormalize_y yv sh))) "destination_x" =
      some (Val.int dxv) := by
    rw [getArg_setArg_ne _ _ (by decide), getArg_setArg_ne _ _ (by decide),
      getArg_setArg_ne args _ (by decide)]
    exact hdx
  have g3dy : getArg (setArg (setArg (setArg args "destination_y"
      (Val.int yv)) "x" (Val.int (denormalize_x xv sw))) "y"
      (Val.int (denormalize_y yv sh))) "destination_y" =
      some (Val.int yv) := by
    rw [getArg_setArg_ne _ _ (by decide), getArg_setArg_ne _ _ (by decide),
      getArg_setArg_self]
  have h3dx : hasArg (setArg (setArg (setArg args "destination_y"
      (Val.int yv)) "x" (Val.int (denormalize_x xv sw))) "y"
      (Val.int (denormalize_y yv sh))) "destination_x" = true :=
    hasArg_true_iff.mpr ⟨_, g3dx⟩
  have h3dy : hasArg (setArg (setArg (setArg args "destination_y"
      (Val.int yv)) "x" (Val.int (denormalize_x xv sw))) "y"
      (Val.int (denormalize_y yv sh))) "destination_y" = true :=
    hasArg_true_iff.mpr ⟨_, g3dy⟩
  have d3 : denormKey (setArg (setArg (setArg args "destination_y"
      (Val.int yv)) "x" (Val.int (denormalize_x xv sw))) "y"
      (Val.int (denormalize_y yv sh))) "destination_x"
      (fun n => denormalize_x n sw) =
      .ok (setArg (setArg (setArg (setArg args "destination_y"
        (Val.int yv)) "x" (Val.int (denormalize_x xv sw))) "y"
        (Val.int (denormalize_y yv sh))) "destination_x"
        (Val.int (denormalize_x dxv sw))) :=
    denormKey_ok_of_int _ g3dx
  have g4dy : getArg (setArg (setArg (setArg (setArg args "destination_y"
      (Val.int yv)) "x" (Val.int (denormalize_x xv sw))) "y"
      (Val.int (denormalize_y yv sh))) "destination_x"
      (Val.int (denormalize_x dxv sw))) "destination_y" =
      some (Val.int yv) := by
    rw [getArg_setArg_ne _ _ (by decide)]; exact g3dy
  have d4 : denormKey (setArg (setArg (setArg (setArg args "destination_y"
      (Val.int yv)) "x" (Val.int (denormalize_x xv sw))) "y"
      (Val.int (denormalize_y yv sh))) "destination_x"
      (Val.int (denormalize_x dxv sw))) "destination_y"
      (fun n => denormalize_y n sh) =
      .ok (setArg (setArg (setArg (setArg (setArg args "destination_y"
        (Val.int yv)) "x" (Val.int (denormalize_x xv sw))) "y"
        (Val.int (denormalize_y yv sh))) "destination_x"
        (Val.int (denormalize_x dxv sw))) "destination_y"
        (Val.int (denormalize_y yv sh))) :=
    denormKey_ok_of_int _ g4dy
  simp only [processArgs, e0, hx1, hy1, Bool.and_self, if_true, d1, d2,
    h3dx, h3dy, d3, d4]

/-! ## `extractActions` lemmas -/

theorem extractActions_of_no_calls {sw sh : Int} {parts : List Part}
    (h : ∀ p ∈ parts, p.function_call = none) :
    extractActions sw sh parts = .ok [] := by
  induction parts with
  | nil => rfl
  | cons p ps ih =>
    have hp := h p (List.mem_cons_self p ps)
    simp only [extractActions, hp]
    exact ih (fun q hq => h q (List.mem_cons_of_mem p hq))

theorem extractActions_forall₂ {sw sh : Int} {parts : List Part}
    {acts : List Action} (h : extractActions sw sh parts = .ok acts) :
    List.Forall₂
      (fun fc a => ∃ ap, processArgs sw sh fc.name fc.args = .ok ap ∧
        a = mkAction fc.name ap)
      (parts.filterMap Part.function_call) acts := by
  induction parts generalizing acts with
  | nil =>
    simp only [extractActions, Except.ok.injEq] at h
    rw [← h]
    simp
  | cons p ps ih =>
    cases hfc : p.function_call with
    | none =>
      simp only [extractActions, hfc] at h
      simpa [List.filterMap_cons, hfc] using ih h
    | some fc =>
      simp only [extractActions, hfc] at h
      cases hpa : processArgs sw sh fc.name fc.args with
      | error e => simp [hpa] at h
      | ok ap =>
        simp only [hpa] at h
        cases hre : extractActions sw sh ps with
        | error e => simp [hre] at h
        | ok rest =>
          simp only [hre, Except.ok.injEq] at h
          rw [← h]
          simp only [List.filterMap_cons, hfc]
          exact List.Forall₂.cons ⟨ap, hpa, rfl⟩ (ih hre)

/-- Helper: an argument binding survives `applyDragDefault` unchanged. -/
theorem getArg_applyDragDefault_of_some {name k : String} {args : ArgList}
    {v : Val} (h : getArg args k = some v) :
    getArg (applyDragDefault name args) k = some v := by
  by_cases hk : k = "destination_y"
  · subst hk
    unfold applyDragDefault
    split
    · rename_i hc
      simp only [Bool.and_eq_true, Bool.not_eq_true'] at hc
      rw [hasArg_false_iff.mp hc.2] at h
      exact absurd h (by simp)
    · exact h
  · rw [getArg_applyDragDefault_ne hk]
    exact h

/-! ## Claim theorems -/

/-- C1, counterexample: the spec asserts
`denormalize(v, d) = floor(v / 1000 * d)` for every normalized `v` in
`[0, 999]` and every dimension `d > 0`, but the code computes
`int((v / 1000) * d)` in binary64 floating point, and at `v = 36`,
`d = 750` the float product is just below `27`, so the code returns `26`
while the exact floor is `27`. -/
theorem denormalize_exact_floor_counterexample :
    denormalize_x 36 750 = 26 ∧ (⌊(36 : ℚ) / 1000 * 750⌋ : Int) = 27 := by
  constructor
  · decide
  · norm_num

/-- C1 (amended): the denormalization functions compute
`int((v / 1000) * d)` in IEEE-754 binary64 arithmetic, which can fall one
below `floor(v * d / 1000)` (for example `denormalize(36, 750) = 26`,
not `27`); the boundary identities of the claim do hold:
`denormalize(0, d) = 0` for every `0 < d ≤ 2^53`, and
`denormalize(999, 1440) = 1438`, not `1439`. -/
theorem denormalize_exact_floor_amended (d : Int) (hd : 0 < d)
    (hd53 : d ≤ 2 ^ 53) :
    denormalize_x 0 d = 0 ∧ denormalize_y 0 d = 0 ∧
    denormalize_x 999 1440 = 1438 ∧ denormalize_x 999 1440 ≠ 1439 ∧
    denormalize_y 999 1440 = 1438 ∧
    denormalize_x 36 750 = 26 := by
  refine ⟨?_, ?_, by decide, by decide, by decide, by decide⟩
  · simp [denormalize_x, denormMag]
  · simp [denormalize_y, denormMag]

/-- C1, witness for the amended theorem at `d = 1440`. -/
theorem denormalize_exact_floor_witness :
    (0 : Int) < 1440 ∧ (1440 : Int) ≤ 2 ^ 53 ∧
    (denormalize_x 0 1440 = 0 ∧ denormalize_y 0 1440 = 0 ∧
     denormalize_x 999 1440 = 1438 ∧ denormalize_x 999 1440 ≠ 1439 ∧
     denormalize_y 999 1440 = 1438 ∧
     denormalize_x 36 750 = 26) :=
  ⟨by decide, by decide,
    denormalize_exact_floor_amended 1440 (by decide) (by decide)⟩

/-- C2: a `drag_and_drop` call with `x`, `y`, `destination_x` present and
`destination_y` absent gets `destination_y` set to the normalized `y`
before denormalization, so in the processed arguments (and in the
assembled action, which is what both endpoints return) the denormalized
`destination_y` equals the denormalized `y`, with the same viewport
height applied to both. -/
theorem drag_missing_destination_y_defaults
    (sw sh : Int) (args : ArgList) (xv yv dxv : Int)
    (hnd : (args.map Prod.fst).Nodup)
    (hx : getArg args "x" = some (Val.int xv))
    (hy : getArg args "y" = some (Val.int yv))
    (hdx : getArg args "destination_x" = some (Val.int dxv))
    (hdy : hasArg args "destination_y" = false) :
    ∃ out, processArgs sw sh "drag_and_drop" args = .ok out ∧
      getArg out "y" = some (Val.int (denormalize_y yv sh)) ∧
      getArg out "destination_y" = some (Val.int (denormalize_y yv sh)) ∧
      getArg (mkAction "drag_and_drop" out) "destination_y" =
        some (Val.int (denormalize_y yv sh)) ∧
      getArg (mkAction "drag_and_drop" out) "destination_y" =
        getArg (mkAction "drag_and_drop" out) "y" ∧
      extractActions sw sh [⟨some ⟨"drag_and_drop", args⟩, none⟩] =
        .ok [mkAction "drag_and_drop" out] := by
  have hpa := processArgs_drag sw sh hx hy hdx hdy
  refine ⟨_, hpa, ?_, ?_, ?_, ?_, ?_⟩
  · -- `y` in the output: skip the final `destination_y` and
    -- `destination_x` updates, then hit the `y` update.
    rw [getArg_setArg_ne _ _ (by decide), getArg_setArg_ne _ _ (by decide),
      getArg_setArg_self]
  · exact getArg_setArg_self _ _ _
  · exact getArg_mkAction_of_nodup (processArgs_nodup hpa hnd)
      (getArg_setArg_self _ _ _)
  · rw [getArg_mkAction_of_nodup (processArgs_nodup hpa hnd)
        (getArg_setArg_self _ _ _),
      getArg_mkAction_of_nodup (processArgs_nodup hpa hnd)
        (by rw [getArg_setArg_ne _ _ (by decide),
          getArg_setArg_ne _ _ (by decide), getArg_setArg_self])]
  · simp only [extractActions, hpa]

/-- C2, witness: a concrete drag with `x=100`, `y=200`,
`destination_x=900` and no `destination_y`, at viewport 1000×1000. -/
theorem drag_missing_destination_y_witness :
    ∃ out, processArgs 1000 1000 "drag_and_drop"
        [("x", Val.int 100), ("y", Val.int 200),
         ("destination_x", Val.int 900)] = .ok out ∧
      getArg out "y" = some (Val.int (denormalize_y 200 1000)) ∧
      getArg out "destination_y" = some (Val.int (denormalize_y 200 1000)) ∧
      getArg (mkAction "drag_and_drop" out) "destination_y" =
        some (Val.int (denormalize_y 200 1000)) ∧
      getArg (mkAction "drag_and_drop" out) "destination_y" =
        getArg (mkAction "drag_and_drop" out) "y" ∧
      extractActions 1000 1000 [⟨some ⟨"drag_and_drop",
          [("x", Val.int 100), ("y", Val.int 200),
           ("destination_x", Val.int 900)]⟩, none⟩] =
        .ok [mkAction "drag_and_drop" out] :=
  drag_missing_destination_y_defaults 1000 1000
    [("x", Val.int 100), ("y", Val.int 200), ("destination_x", Val.int 900)]
    100 200 900 (by decide) (by decide) (by decide) (by decide) (by decide)

/-- C3: `/analyze-state` denormalizes with the fixed constants
`SCREEN_WIDTH = 1440`, `SCREEN_HEIGHT = 900` and its result does not
depend on any viewport dimensions in the request body, while
`/solve-captcha` denormalizes with the caller-supplied
`screen_width`/`screen_height` when present. -/
theorem viewport_fixed_vs_supplied
    (sd : SolveData) (env : Env) (w h : Int) (s : String)
    (parts : List Part) (acts : List Action)
    (hs : sd.screenshot = some s) (hne : s ≠ "")
    (hw : sd.screen_width = some w) (hh : sd.screen_height = some h)
    (hdec : env.decode s = .ok ())
    (hm : env.model (sd.task.getD defaultTask) = .ok parts)
    (hex : extractActions w h parts = .ok acts)
    (td : StateData) (env2 : Env) (s2 : String)
    (parts2 : List Part) (acts2 : List Action)
    (hs2 : td.screenshot = some s2) (hne2 : s2 ≠ "")
    (hdec2 : env2.decode s2 = .ok ())
    (hm2 : env2.model (stateTask (td.previous_action.getD "unknown")) =
      .ok parts2)
    (hex2 : extractActions SCREEN_WIDTH SCREEN_HEIGHT parts2 = .ok acts2) :
    (∃ msg c, (solve_captcha (.ok (some sd)) env).resp =
      .okResp true acts msg c) ∧
    (∃ msg, (analyze_state (.ok (some td)) env2).resp =
      .okResp acts2.isEmpty acts2 msg) ∧
    (∀ w' h' : Option Int,
      analyze_state
        (.ok (some { td with screen_width := w', screen_height := h' }))
        env2 =
      analyze_state (.ok (some td)) env2) := by
  refine ⟨?_, ?_, ?_⟩
  · simp only [solve_captcha, hs, hw, hh, Option.getD_some, if_neg hne,
      hdec, hm, hex]
    cases acts with
    | nil => exact ⟨_, _, rfl⟩
    | cons a rest => exact ⟨_, _, rfl⟩
  · simp only [analyze_state, hs2, if_neg hne2, hdec2, hm2, hex2]
    cases acts2 with
    | nil => exact ⟨_, rfl⟩
    | cons a rest => exact ⟨_, rfl⟩
  · intro w' h'
    rfl

/-- C3, witness: concrete requests in which `/solve-captcha` is given a
100×200 viewport (and uses it) and `/analyze-state` is given a 50×60
viewport (and ignores it, denormalizing `x = 500`, `y = 500` with
1440×900 to 720×450). -/
theorem viewport_fixed_vs_supplied_witness :
    (∃ msg c, (solve_captcha (.ok (some ⟨some "sc", none, some 100,
        some 200, none⟩))
        ⟨fun _ => .ok (), fun _ => .ok [⟨some ⟨"click_at",
          [("x", Val.int 500), ("y", Val.int 500)]⟩, none⟩]⟩).resp =
      .okResp true [[("type", Val.str "click_at"), ("x", Val.int 50),
        ("y", Val.int 100)]] msg c) ∧
    (∃ msg, (analyze_state (.ok (some ⟨some "sc", none, none, some 50,
        some 60⟩))
        ⟨fun _ => .ok (), fun _ => .ok [⟨some ⟨"click_at",
          [("x", Val.int 500), ("y", Val.int 500)]⟩, none⟩]⟩).resp =
      .okResp ([[("type", Val.str "click_at"), ("x", Val.int 720),
        ("y", Val.int 450)]] : List Action).isEmpty
        [[("type", Val.str "click_at"), ("x", Val.int 720),
          ("y", Val.int 450)]] msg) ∧
    (∀ w' h' : Option Int,
      analyze_state
        (.ok (some { (⟨some "sc", none, none, some 50, some 60⟩ : StateData) with screen_width := w', screen_height := h' }))
        ⟨fun _ => .ok (), fun _ => .ok [⟨some ⟨"click_at",
          [("x", Val.int 500), ("y", Val.int 500)]⟩, none⟩]⟩ =
      analyze_state (.ok (some ⟨some "sc", none, none, some 50, some 60⟩))
        ⟨fun _ => .ok (), fun _ => .ok [⟨some ⟨"click_at",
          [("x", Val.int 500), ("y", Val.int 500)]⟩, none⟩]⟩) :=
  viewport_fixed_vs_supplied
    ⟨some "sc", none, some 100, some 200, none⟩
    ⟨fun _ => .ok (), fun _ => .ok [⟨some ⟨"click_at",
      [("x", Val.int 500), ("y", Val.int 500)]⟩, none⟩]⟩
    100 200 "sc"
    [⟨some ⟨"click_at", [("x", Val.int 500), ("y", Val.int 500)]⟩, none⟩]
    [[("type", Val.str "click_at"), ("x", Val.int 50), ("y", Val.int 100)]]
    rfl (by decide) rfl rfl rfl rfl rfl
    ⟨some "sc", none, none, some 50, some 60⟩
    ⟨fun _ => .ok (), fun _ => .ok [⟨some ⟨"click_at",
      [("x", Val.int 500), ("y", Val.int 500)]⟩, none⟩]⟩
    "sc"
    [⟨some ⟨"click_at", [("x", Val.int 500), ("y", Val.int 500)]⟩, none⟩]
    [[("type", Val.str "click_at"), ("x", Val.int 720), ("y", Val.int 450)]]
    rfl (by decide) rfl rfl rfl

/-- C4: when the model response contains zero function-call parts,
`/solve-captcha` returns `success = true`, an empty action list and
`complete = true`, and `/analyze-state` returns `complete = true`; any
(non-empty) free-text part is carried as the message. -/
theorem zero_function_calls_complete
    (sd : SolveData) (env : Env) (s : String) (parts : List Part)
    (hs : sd.screenshot = some s) (hne : s ≠ "")
    (hdec : env.decode s = .ok ())
    (hm : env.model (sd.task.getD defaultTask) = .ok parts)
    (hnofc : ∀ p ∈ parts, p.function_call = none)
    (td : StateData) (env2 : Env) (s2 : String) (parts2 : List Part)
    (hs2 : td.screenshot = some s2) (hne2 : s2 ≠ "")
    (hdec2 : env2.decode s2 = .ok ())
    (hm2 : env2.model (stateTask (td.previous_action.getD "unknown")) =
      .ok parts2)
    (hnofc2 : ∀ p ∈ parts2, p.function_call = none) :
    (solve_captcha (.ok (some sd)) env).resp =
      .okResp true [] ((firstText parts).getD "No actions needed") true ∧
    (analyze_state (.ok (some td)) env2).resp =
      .okResp true [] ((firstText parts2).getD "Complete") ∧
    (∀ m, firstText parts = some m →
      (solve_captcha (.ok (some sd)) env).resp = .okResp true [] m true) := by
  have hex := @extractActions_of_no_calls
    (sd.screen_width.getD SCREEN_WIDTH) (sd.screen_height.getD
    SCREEN_HEIGHT) parts hnofc
  have hex2 := @extractActions_of_no_calls SCREEN_WIDTH SCREEN_HEIGHT
    parts2 hnofc2
  have h1 : (solve_captcha (.ok (some sd)) env).resp =
      .okResp true [] ((firstText parts).getD "No actions needed") true := by
    simp only [solve_captcha, hs, if_neg hne, hdec, hm, hex]
    rfl
  refine ⟨h1, ?_, ?_⟩
  · simp only [analyze_state, hs2, if_neg hne2, hdec2, hm2, hex2]
    rfl
  · intro m hmsg
    rw [h1, hmsg]
    rfl

/-- C4, witness: a response with a single text part `"Solved"` and no
function calls. -/
theorem zero_function_calls_complete_witness :
    (solve_captcha (.ok (some ⟨some "sc", none, none, none, none⟩))
      ⟨fun _ => .ok (), fun _ => .ok [⟨none, some "Solved"⟩]⟩).resp =
      .okResp true []
        ((firstText [⟨none, some "Solved"⟩]).getD "No actions needed")
        true ∧
    (analyze_state (.ok (some ⟨some "sc", none, none, none, none⟩))
      ⟨fun _ => .ok (), fun _ => .ok [⟨none, some "Solved"⟩]⟩).resp =
      .okResp true [] ((firstText [⟨none, some "Solved"⟩]).getD "Complete") ∧
    (∀ m, firstText [(⟨none, some "Solved"⟩ : Part)] = some m →
      (solve_captcha (.ok (some ⟨some "sc", none, none, none, none⟩))
        ⟨fun _ => .ok (), fun _ => .ok [⟨none, some "Solved"⟩]⟩).resp =
        .okResp true [] m true) :=
  zero_function_calls_complete
    ⟨some "sc", none, none, none, none⟩
    ⟨fun _ => .ok (), fun _ => .ok [⟨none, some "Solved"⟩]⟩
    "sc" [⟨none, some "Solved"⟩]
    rfl (by decide) rfl rfl (by decide)
    ⟨some "sc", none, none, none, none⟩
    ⟨fun _ => .ok (), fun _ => .ok [⟨none, some "Solved"⟩]⟩
    "sc" [⟨none, some "Solved"⟩]
    rfl (by decide) rfl rfl (by decide)

/-- C5, counterexample: the returned action's `type` field does *not*
always hold the function name — `{'type': action_name, **args}` lets an
argument key literally named `"type"` overwrite it.  A `click_at` call
whose arguments contain `("type", "weird")` yields an action whose
`type` is `"weird"`. -/
theorem actions_type_field_counterexample :
    (solve_captcha
      (.ok (some ⟨some "sc", none, some 1000, some 1000, none⟩))
      ⟨fun _ => .ok (), fun _ => .ok [⟨some ⟨"click_at",
        [("x", Val.int 500), ("y", Val.int 500),
         ("type", Val.str "weird")]⟩, none⟩]⟩).resp =
      .okResp true [[("type", Val.str "weird"), ("x", Val.int 500),
        ("y", Val.int 500)]] "1 actions to execute" false ∧
    getArg [("type", Val.str "weird"), ("x", Val.int 500),
      ("y", Val.int 500)] "type" ≠ some (Val.str "click_at") :=
  ⟨rfl, by decide⟩

/-- C5 (amended): a model response with `N ≥ 1` function-call parts
yields exactly `N` actions in emission order with `complete = false`,
never re-ordered or deduplicated; each action retains every parameter
key the model supplied, and its `type` field holds the function name
*provided* the supplied parameters do not themselves contain a `"type"`
key (which would overwrite it, dict-merge semantics). -/
theorem actions_order_and_keys_amended
    (sw sh : Int) (parts : List Part) (acts : List Action)
    (hex : extractActions sw sh parts = .ok acts)
    (sd : SolveData) (env : Env) (s : String)
    (hs : sd.screenshot = some s) (hne : s ≠ "")
    (hw : sd.screen_width = some sw) (hh : sd.screen_height = some sh)
    (hdec : env.decode s = .ok ())
    (hm : env.model (sd.task.getD defaultTask) = .ok parts)
    (hanz : acts ≠ []) :
    acts.length = (parts.filterMap Part.function_call).length ∧
    (∀ i (h1 : i < (parts.filterMap Part.function_call).length)
        (h2 : i < acts.length),
      (∀ k, hasArg ((parts.filterMap Part.function_call).get ⟨i, h1⟩).args
          k = true → hasArg (acts.get ⟨i, h2⟩) k = true) ∧
      (hasArg ((parts.filterMap Part.function_call).get ⟨i, h1⟩).args
          "type" = false →
        getArg (acts.get ⟨i, h2⟩) "type" =
          some (Val.str
            ((parts.filterMap Part.function_call).get ⟨i, h1⟩).name))) ∧
    (solve_captcha (.ok (some sd)) env).resp =
      .okResp true acts
        ((firstText parts).getD (toString acts.length ++
          " actions to execute")) false := by
  have hf := extractActions_forall₂ hex
  refine ⟨hf.length_eq.symm, ?_, ?_⟩
  · intro i h1 h2
    obtain ⟨ap, hpa, ha⟩ := (List.forall₂_iff_get.mp hf).2 i h1 h2
    constructor
    · intro k hk
      rw [ha]
      exact hasArg_mkAction_of_hasArg (processArgs_hasArg hpa hk)
    · intro ht
      rw [ha]
      exact getArg_mkAction_type (processArgs_not_type hpa ht)
  · simp only [solve_captcha, hs, hw, hh, Option.getD_some, if_neg hne,
      hdec, hm, hex]
    cases acts with
    | nil => exact absurd rfl hanz
    | cons a rest => rfl

/-- C5, witness: two function-call parts (a `click_at` and a
`wait_5_seconds`) produce exactly two actions in order. -/
theorem actions_order_and_keys_witness :
    ([[("type", Val.str "click_at"), ("x", Val.int 500),
      ("y", Val.int 250)], [("type", Val.str "wait_5_seconds")]] :
      List Action).length =
      (([⟨some ⟨"click_at", [("x", Val.int 500),
        ("y", Val.int 500)]⟩, none⟩, ⟨some ⟨"wait_5_seconds", []⟩,
        none⟩] : List Part).filterMap Part.function_call).length ∧
    (∀ i (h1 : i < (([⟨some ⟨"click_at", [("x", Val.int 500),
        ("y", Val.int 500)]⟩, none⟩, ⟨some ⟨"wait_5_seconds", []⟩,
        none⟩] : List Part).filterMap Part.function_call).length)
        (h2 : i < ([[("type", Val.str "click_at"), ("x", Val.int 500),
          ("y", Val.int 250)], [("type", Val.str "wait_5_seconds")]] :
          List Action).length),
      (∀ k, hasArg ((([⟨some ⟨"click_at", [("x", Val.int 500),
          ("y", Val.int 500)]⟩, none⟩, ⟨some ⟨"wait_5_seconds", []⟩,
          none⟩] : List Part).filterMap Part.function_call).get
          ⟨i, h1⟩).args k = true →
        hasArg (([[("type", Val.str "click_at"), ("x", Val.int 500),
          ("y", Val.int 250)], [("type", Val.str "wait_5_seconds")]] :
          List Action).get ⟨i, h2⟩) k = true) ∧
      (hasArg ((([⟨some ⟨"click_at", [("x", Val.int 500),
          ("y", Val.int 500)]⟩, none⟩, ⟨some ⟨"wait_5_seconds", []⟩,
          none⟩] : List Part).filterMap Part.function_call).get
          ⟨i, h1⟩).args "type" = false →
        getArg (([[("type", Val.str "click_at"), ("x", Val.int 500),
          ("y", Val.int 250)], [("type", Val.str "wait_5_seconds")]] :
          List Action).get ⟨i, h2⟩) "type" =
          some (Val.str ((([⟨some ⟨"click_at", [("x", Val.int 500),
            ("y", Val.int 500)]⟩, none⟩, ⟨some ⟨"wait_5_seconds", []⟩,
            none⟩] : List Part).filterMap Part.function_call).get
            ⟨i, h1⟩).name))) ∧
    (solve_captcha (.ok (some ⟨some "sc", none, some 1000, some 500,
        none⟩))
      ⟨fun _ => .ok (), fun _ => .ok [⟨some ⟨"click_at",
        [("x", Val.int 500), ("y", Val.int 500)]⟩, none⟩,
        ⟨some ⟨"wait_5_seconds", []⟩, none⟩]⟩).resp =
      .okResp true
        [[("type", Val.str "click_at"), ("x", Val.int 500),
          ("y", Val.int 250)], [("type", Val.str "wait_5_seconds")]]
        ((firstText [⟨some ⟨"click_at", [("x", Val.int 500),
          ("y", Val.int 500)]⟩, none⟩, ⟨some ⟨"wait_5_seconds", []⟩,
          none⟩]).getD
          (toString ([[("type", Val.str "click_at"), ("x", Val.int 500),
            ("y", Val.int 250)], [("type", Val.str "wait_5_seconds")]] :
            List Action).length ++ " actions to execute"))
        false :=
  actions_order_and_keys_amended 1000 500
    [⟨some ⟨"click_at", [("x", Val.int 500), ("y", Val.int 500)]⟩, none⟩,
     ⟨some ⟨"wait_5_seconds", []⟩, none⟩]
    [[("type", Val.str "click_at"), ("x", Val.int 500),
      ("y", Val.int 250)], [("type", Val.str "wait_5_seconds")]]
    rfl ⟨some "sc", none, some 1000, some 500, none⟩
    ⟨fun _ => .ok (), fun _ => .ok [⟨some ⟨"click_at",
      [("x", Val.int 500), ("y", Val.int 500)]⟩, none⟩,
      ⟨some ⟨"wait_5_seconds", []⟩, none⟩]⟩
    "sc" rfl (by decide) rfl rfl rfl rfl (by decide)

/-- C6: a missing or empty `screenshot` on any of the three
solving/analysis endpoints yields an HTTP 400 response and the external
model is never invoked. -/
theorem missing_screenshot_client_error
    (sd : SolveData) (env : Env) (hsd : strFalsy sd.screenshot = true)
    (td : StateData) (env2 : Env) (htd : strFalsy td.screenshot = true)
    (gd : StrategyData) (env3 : StrategyEnv)
    (hgd : strFalsy gd.screenshot = true) :
    ((solve_captcha (.ok (some sd)) env).resp.status = 400 ∧
     (solve_captcha (.ok (some sd)) env).model_called = false) ∧
    ((analyze_state (.ok (some td)) env2).resp.status = 400 ∧
     (analyze_state (.ok (some td)) env2).model_called = false) ∧
    ((analyze_strategy (.ok (some gd)) env3).resp.status = 400 ∧
     (analyze_strategy (.ok (some gd)) env3).model_called = false) := by
  have h1 : solve_captcha (.ok (some sd)) env =
      ⟨.badRequest "screenshot is required", false, none⟩ := by
    cases hs : sd.screenshot with
    | none => simp [solve_captcha, hs]
    | some s =>
      have hse : s = "" := by
        have := hsd
        rw [hs] at this
        simpa [strFalsy] using this
      subst hse
      simp [solve_captcha, hs]
  have h2 : analyze_state (.ok (some td)) env2 =
      ⟨.badRequest "screenshot is required", false⟩ := by
    cases hs : td.screenshot with
    | none => simp [analyze_state, hs]
    | some s =>
      have hse : s = "" := by
        have := htd
        rw [hs] at this
        simpa [strFalsy] using this
      subst hse
      simp [analyze_state, hs]
  have h3 : analyze_strategy (.ok (some gd)) env3 =
      ⟨.badRequest "No screenshot provided", false⟩ := by
    cases hs : gd.screenshot with
    | none => simp [analyze_strategy, hs]
    | some s =>
      have hse : s = "" := by
        have := hgd
        rw [hs] at this
        simpa [strFalsy] using this
      subst hse
      simp [analyze_strategy, hs]
  rw [h1, h2, h3]
  exact ⟨⟨rfl, rfl⟩, ⟨rfl, rfl⟩, ⟨rfl, rfl⟩⟩

/-- C6, witness: one request with `screenshot` absent and one with an
empty string, over all three endpoints. -/
theorem missing_screenshot_client_error_witness :
    ((solve_captcha (.ok (some ⟨none, none, none, none, none⟩))
        ⟨fun _ => .ok (), fun _ => .ok []⟩).resp.status = 400 ∧
     (solve_captcha (.ok (some ⟨none, none, none, none, none⟩))
        ⟨fun _ => .ok (), fun _ => .ok []⟩).model_called = false) ∧
    ((analyze_state (.ok (some ⟨some "", none, none, none, none⟩))
        ⟨fun _ => .ok (), fun _ => .ok []⟩).resp.status = 400 ∧
     (analyze_state (.ok (some ⟨some "", none, none, none, none⟩))
        ⟨fun _ => .ok (), fun _ => .ok []⟩).model_called = false) ∧
    ((analyze_strategy (.ok (some ⟨none, none⟩))
        ⟨fun _ => .ok (), .ok "x"⟩).resp.status = 400 ∧
     (analyze_strategy (.ok (some ⟨none, none⟩))
        ⟨fun _ => .ok (), .ok "x"⟩).model_called = false) :=
  missing_screenshot_client_error
    ⟨none, none, none, none, none⟩ ⟨fun _ => .ok (), fun _ => .ok []⟩
    (by decide)
    ⟨some "", none, none, none, none⟩ ⟨fun _ => .ok (), fun _ => .ok []⟩
    (by decide)
    ⟨none, none⟩ ⟨fun _ => .ok (), .ok "x"⟩ (by decide)

/-- C7: when the external model call raises (network, quota, malformed
response), every endpoint catches the failure and returns a JSON failure
payload carrying the raised message, with HTTP status 500; the handler
remains total, so no failure escapes it. -/
theorem model_failure_returns_500
    (sd : SolveData) (env : Env) (s msg : String)
    (hs : sd.screenshot = some s) (hne : s ≠ "")
    (hdec : env.decode s = .ok ())
    (hm : ∀ t, env.model t = .error msg)
    (td : StateData) (env2 : Env) (s2 msg2 : String)
    (hs2 : td.screenshot = some s2) (hne2 : s2 ≠ "")
    (hdec2 : env2.decode s2 = .ok ())
    (hm2 : ∀ t, env2.model t = .error msg2)
    (gd : StrategyData) (env3 : StrategyEnv) (s3 msg3 : String)
    (hs3 : gd.screenshot = some s3) (hne3 : s3 ≠ "")
    (hdec3 : env3.decode s3 = .ok ())
    (hm3 : env3.model = .error msg3) :
    (solve_captcha (.ok (some sd)) env).resp = .serverError msg ∧
    (solve_captcha (.ok (some sd)) env).resp.status = 500 ∧
    (analyze_state (.ok (some td)) env2).resp = .serverError msg2 ∧
    (analyze_state (.ok (some td)) env2).resp.status = 500 ∧
    (analyze_strategy (.ok (some gd)) env3).resp = .serverError msg3 ∧
    (analyze_strategy (.ok (some gd)) env3).resp.status = 500 := by
  have h1 : (solve_captcha (.ok (some sd)) env).resp = .serverError msg := by
    simp [solve_captcha, hs, if_neg hne, hdec, hm]
  have h2 : (analyze_state (.ok (some td)) env2).resp =
      .serverError msg2 := by
    simp [analyze_state, hs2, if_neg hne2, hdec2, hm2]
  have h3 : (analyze_strategy (.ok (some gd)) env3).resp =
      .serverError msg3 := by
    simp [analyze_strategy, hs3, if_neg hne3, hdec3, hm3]
  exact ⟨h1, by rw [h1]; rfl, h2, by rw [h2]; rfl, h3, by rw [h3]; rfl⟩

/-- C7, witness: a model raising `"quota exceeded"` on each endpoint. -/
theorem model_failure_returns_500_witness :
    (solve_captcha (.ok (some ⟨some "sc", none, none, none, none⟩))
      ⟨fun _ => .ok (), fun _ => .error "quota exceeded"⟩).resp =
      .serverError "quota exceeded" ∧
    (solve_captcha (.ok (some ⟨some "sc", none, none, none, none⟩))
      ⟨fun _ => .ok (), fun _ => .error "quota exceeded"⟩).resp.status =
      500 ∧
    (analyze_state (.ok (some ⟨some "sc", none, none, none, none⟩))
      ⟨fun _ => .ok (), fun _ => .error "quota exceeded"⟩).resp =
      .serverError "quota exceeded" ∧
    (analyze_state (.ok (some ⟨some "sc", none, none, none, none⟩))
      ⟨fun _ => .ok (), fun _ => .error "quota exceeded"⟩).resp.status =
      500 ∧
    (analyze_strategy (.ok (some ⟨some "sc", none⟩))
      ⟨fun _ => .ok (), .error "quota exceeded"⟩).resp =
      .serverError "quota exceeded" ∧
    (analyze_strategy (.ok (some ⟨some "sc", none⟩))
      ⟨fun _ => .ok (), .error "quota exceeded"⟩).resp.status = 500 :=
  model_failure_returns_500
    ⟨some "sc", none, none, none, none⟩
    ⟨fun _ => .ok (), fun _ => .error "quota exceeded"⟩ "sc"
    "quota exceeded" rfl (by decide) rfl (fun _ => rfl)
    ⟨some "sc", none, none, none, none⟩
    ⟨fun _ => .ok (), fun _ => .error "quota exceeded"⟩ "sc"
    "quota exceeded" rfl (by decide) rfl (fun _ => rfl)
    ⟨some "sc", none⟩ ⟨fun _ => .ok (), .error "quota exceeded"⟩ "sc"
    "quota exceeded" rfl (by decide) rfl rfl

/-- C8, counterexample: an unparseable JSON body does *not* produce a
400-class client error.  Flask's `request.json` raises inside the
endpoint's try-block and the catch-all converts the parse failure into
the 500 `{'success': False, 'error': ...}` response. -/
theorem unparseable_json_counterexample :
    (solve_captcha (.error "Failed to decode JSON object")
      ⟨fun _ => .ok (), fun _ => .ok []⟩).resp.status = 500 ∧
    (500 : Nat) ≠ 400 :=
  ⟨rfl, by decide⟩

/-- C8 (amended): an unparseable JSON body is answered with the
500-equivalent catch-all failure response carrying the parse-error
message (the model is not invoked); only a body that parses to a falsy
value (`null`, empty object) receives the 400 client error
`No JSON data provided` on `/solve-captcha`. -/
theorem unparseable_json_amended (e : String) (env : Env) :
    (solve_captcha (.error e) env).resp = .serverError e ∧
    (solve_captcha (.error e) env).resp.status = 500 ∧
    (solve_captcha (.error e) env).model_called = false ∧
    (solve_captcha (.ok none) env).resp =
      .badRequest "No JSON data provided" ∧
    (solve_captcha (.ok none) env).resp.status = 400 ∧
    (solve_captcha (.ok none) env).model_called = false :=
  ⟨rfl, rfl, rfl, rfl, rfl, rfl⟩

/-- C9: `/solve-captcha` substitutes the fixed defaults — the 1440×900
viewport and the generic task string — for omitted `screen_width`,
`screen_height` and `task`, and those substituted values are the ones
the rest of the pipeline uses: the model receives the default task text,
denormalization uses 1440×900, and the whole request behaves identically
to one that passes the defaults explicitly. -/
theorem solve_defaults_substituted
    (sd : SolveData) (env : Env) (s : String) (parts : List Part)
    (acts : List Action)
    (htask : sd.task = none) (hw : sd.screen_width = none)
    (hh : sd.screen_height = none)
    (hs : sd.screenshot = some s) (hne : s ≠ "")
    (hdec : env.decode s = .ok ())
    (hm : env.model defaultTask = .ok parts)
    (hex : extractActions SCREEN_WIDTH SCREEN_HEIGHT parts = .ok acts) :
    (solve_captcha (.ok (some sd)) env).model_task = some defaultTask ∧
    (∃ msg c, (solve_captcha (.ok (some sd)) env).resp =
      .okResp true acts msg c) ∧
    solve_captcha (.ok (some sd)) env =
      solve_captcha (.ok (some { sd with task := some defaultTask, screen_width := some SCREEN_WIDTH, screen_height := some SCREEN_HEIGHT }))
        env := by
  have hred : solve_captcha (.ok (some sd)) env =
      solve_captcha (.ok (some { sd with task := some defaultTask, screen_width := some SCREEN_WIDTH, screen_height := some SCREEN_HEIGHT }))
        env := by
    simp only [solve_captcha, htask, hw, hh, hs, Option.getD_none,
      Option.getD_some]
  refine ⟨?_, ?_, hred⟩
  · simp only [solve_captcha, htask, hw, hh, hs, Option.getD_none,
      Option.getD_some, if_neg hne, hdec, hm, hex]
    cases acts with
    | nil => rfl
    | cons a rest => rfl
  · simp only [solve_captcha, htask, hw, hh, hs, Option.getD_none,
      Option.getD_some, if_neg hne, hdec, hm, hex]
    cases acts with
    | nil => exact ⟨_, _, rfl⟩
    | cons a rest => exact ⟨_, _, rfl⟩

/-- C9, witness: a request that omits `task`, `screen_width` and
`screen_height`; the model's `click_at (500, 500)` is denormalized with
1440×900 to `(720, 450)`. -/
theorem solve_defaults_substituted_witness :
    (solve_captcha (.ok (some ⟨some "sc", none, none, none, none⟩))
      ⟨fun _ => .ok (), fun _ => .ok [⟨some ⟨"click_at",
        [("x", Val.int 500), ("y", Val.int 500)]⟩, none⟩]⟩).model_task =
      some defaultTask ∧
    (∃ msg c, (solve_captcha (.ok (some ⟨some "sc", none, none, none,
        none⟩))
      ⟨fun _ => .ok (), fun _ => .ok [⟨some ⟨"click_at",
        [("x", Val.int 500), ("y", Val.int 500)]⟩, none⟩]⟩).resp =
      .okResp true [[("type", Val.str "click_at"), ("x", Val.int 720),
        ("y", Val.int 450)]] msg c) ∧
    solve_captcha (.ok (some ⟨some "sc", none, none, none, none⟩))
      ⟨fun _ => .ok (), fun _ => .ok [⟨some ⟨"click_at",
        [("x", Val.int 500), ("y", Val.int 500)]⟩, none⟩]⟩ =
    solve_captcha (.ok (some { (⟨some "sc", none, none, none, none⟩ : SolveData) with task := some defaultTask, screen_width := some SCREEN_WIDTH, screen_height := some SCREEN_HEIGHT }))
      ⟨fun _ => .ok (), fun _ => .ok [⟨some ⟨"click_at",
        [("x", Val.int 500), ("y", Val.int 500)]⟩, none⟩]⟩ :=
  solve_defaults_substituted
    ⟨some "sc", none, none, none, none⟩
    ⟨fun _ => .ok (), fun _ => .ok [⟨some ⟨"click_at",
      [("x", Val.int 500), ("y", Val.int 500)]⟩, none⟩]⟩
    "sc"
    [⟨some ⟨"click_at", [("x", Val.int 500), ("y", Val.int 500)]⟩, none⟩]
    [[("type", Val.str "click_at"), ("x", Val.int 720),
      ("y", Val.int 450)]]
    rfl rfl rfl rfl (by decide) rfl rfl rfl

/-- C10: a function-call part whose arguments lack `x` or lack `y` is
never denormalized — `processArgs` succeeds without touching any value
(it is independent of the viewport dimensions), every supplied binding
reaches the assembled action unchanged in raw normalized form, and this
is the per-part behavior of the extraction loop shared by both
endpoints. -/
theorem no_denormalization_without_xy
    (sw sh sw2 sh2 : Int) (name : String) (args : ArgList)
    (hnd : (args.map Prod.fst).Nodup)
    (hxy : (hasArg args "x" && hasArg args "y") = false) :
    processArgs sw sh name args = .ok (applyDragDefault name args) ∧
    processArgs sw sh name args = processArgs sw2 sh2 name args ∧
    (∀ k v, getArg args k = some v →
      getArg (mkAction name (applyDragDefault name args)) k = some v) ∧
    extractActions sw sh [⟨some ⟨name, args⟩, none⟩] =
      .ok [mkAction name (applyDragDefault name args)] := by
  have h1 : processArgs sw sh name args =
      .ok (applyDragDefault name args) := processArgs_no_denorm hxy
  refine ⟨h1, ?_, ?_, ?_⟩
  · rw [h1, processArgs_no_denorm hxy]
  · intro k v hkv
    exact getArg_mkAction_of_nodup (nodup_keys_applyDragDefault hnd)
      (getArg_applyDragDefault_of_some hkv)
  · simp only [extractActions, h1]

/-- C10, witness: a `drag_and_drop` with only `y` and `destination_x`
(no `x`): nothing is denormalized, the raw values `200` and `900`
survive, and only the raw `destination_y := y` default is added. -/
theorem no_denormalization_without_xy_witness :
    processArgs 1440 900 "drag_and_drop"
      [("y", Val.int 200), ("destination_x", Val.int 900)] =
      .ok (applyDragDefault "drag_and_drop"
        [("y", Val.int 200), ("destination_x", Val.int 900)]) ∧
    processArgs 1440 900 "drag_and_drop"
      [("y", Val.int 200), ("destination_x", Val.int 900)] =
      processArgs 17 23 "drag_and_drop"
        [("y", Val.int 200), ("destination_x", Val.int 900)] ∧
    (∀ k v, getArg [("y", Val.int 200), ("destination_x", Val.int 900)]
        k = some v →
      getArg (mkAction "drag_and_drop" (applyDragDefault "drag_and_drop"
        [("y", Val.int 200), ("destination_x", Val.int 900)])) k =
        some v) ∧
    extractActions 1440 900 [⟨some ⟨"drag_and_drop",
        [("y", Val.int 200), ("destination_x", Val.int 900)]⟩, none⟩] =
      .ok [mkAction "drag_and_drop" (applyDragDefault "drag_and_drop"
        [("y", Val.int 200), ("destination_x", Val.int 900)])] :=
  no_denormalization_without_xy 1440 900 17 23 "drag_and_drop"
    [("y", Val.int 200), ("destination_x", Val.int 900)]
    (by decide) (by decide)

end CaptchaSolver
